import Mathlib

/-!
# Verification of the permission-and-notification rule layer

Shallow embedding of the parts of the `Alx_DjangoLearnLab` repository that the
frozen claims are about:

* `social_media_api` — likes, comments, follow edges and signal-driven
  notifications (`posts/views.py`, `accounts/views.py`,
  `notifications/signals.py`, `notifications/views.py`);
* `django_blog` — owner-only update/delete gating on posts and comments
  (`blog/views.py`);
* `advanced_features_and_security` — group/permission bootstrap
  (`relationship_app/management/commands/setup_groups.py`), role predicates
  (`relationship_app/views.py`), free-text sanitization
  (`bookshelf/forms.py`);
* `advanced-api-project` — book serializer validation and list ordering
  (`api/serializers.py`, `api/views.py`).

Databases are embedded as lists of records, Django/DRF request handlers as
pure functions from a request plus a store to a response plus a new store.
Where a handler's behaviour is fixed by the framework (signal dispatch on
`post_save`, many-to-many `add`/`remove`, `OrderingFilter`), the embedding
follows the framework's actual semantics, documented at each definition.
-/

set_option autoImplicit false

/-! ## Social media API: data model

Records mirror the fields the embedded code paths touch.  A `Like` /
`Comment` instance carries its `post` as an object (as in Django, where
`instance.post` is the related row), so the signal handlers can read
`instance.post.author` directly. -/

/-- A `posts.models.Post` row: primary key and author (user id). -/
structure SMPost where
  id : Nat
  author : Nat
  deriving DecidableEq, Repr

/-- A `posts.models.Like` row: the liking user and the liked post. -/
structure SMLike where
  user : Nat
  post : SMPost
  deriving DecidableEq, Repr

/-- A `posts.models.Comment` row: primary key, comment author, commented post. -/
structure SMComment where
  id : Nat
  author : Nat
  post : SMPost
  deriving DecidableEq, Repr

/-- A `notifications.models.Notification` row as created by the signal
handlers: recipient, actor, verb, and target id. -/
structure SMNotification where
  recipient : Nat
  actor : Nat
  verb : String
  target : Nat
  deriving DecidableEq, Repr

/-- An `accounts.models.CustomUser` row: primary key and username. -/
structure SMUser where
  id : Nat
  username : String
  deriving DecidableEq, Repr

/-- A row of the `CustomUser.following` through table: a follow edge
from `fromUser` to `toUser`. -/
structure FollowEdge where
  fromUser : Nat
  toUser : Nat
  deriving DecidableEq, Repr

/-- The persisted state of the social media API. -/
structure SMStore where
  users : List SMUser
  posts : List SMPost
  likes : List SMLike
  comments : List SMComment
  followEdges : List FollowEdge
  notifications : List SMNotification
  deriving DecidableEq, Repr

/-- An HTTP response: status code plus the message carried in the JSON body
(the value under `success` / `error`). -/
structure SMResponse where
  status : Nat
  message : String
  deriving DecidableEq, Repr

/-! ## Social media API: signal receivers (`notifications/signals.py`)

Django fires `post_save` with `created=True` exactly when a row is inserted
(`Model.objects.create`, or `get_or_create` on a miss) and with
`created=False` on a save of an existing row; `post_save` is not fired on
delete.  Each receiver appends one `Notification` iff `created`. -/

/-- `create_like_notification` (notifications/signals.py lines 8–16):
on `post_save` of a `Like` with `created=True`, create one Notification
with recipient = the liked post's author and verb `"liked your post"`. -/
def create_like_notification (created : Bool) (inst : SMLike)
    (notifs : List SMNotification) : List SMNotification :=
  if created then
    notifs ++ [⟨inst.post.author, inst.user, "liked your post", inst.post.id⟩]
  else notifs

/-- `create_comment_notification` (notifications/signals.py lines 18–26):
on `post_save` of a `Comment` with `created=True`, create one Notification
with recipient = the commented post's author and verb
`"commented on your post"`. -/
def create_comment_notification (created : Bool) (inst : SMComment)
    (notifs : List SMNotification) : List SMNotification :=
  if created then
    notifs ++ [⟨inst.post.author, inst.author, "commented on your post", inst.post.id⟩]
  else notifs

/-! ## Social media API: comment lifecycle

`Comment` rows are written through the ORM: an insert fires `post_save`
with `created=True`, a save of an existing row fires it with
`created=False`, and a delete fires only `post_delete`, for which no
receiver is registered. -/

/-- Saving a comment: inserts the row when its id is fresh (Django
`created=True`), otherwise replaces the row with the same id
(`created=False`); then the registered `post_save` receiver runs. -/
def commentSave (c : SMComment) (st : SMStore) : SMStore :=
  let created := ! st.comments.any (fun x => x.id == c.id)
  let comments :=
    if created then st.comments ++ [c]
    else st.comments.map (fun x => if x.id == c.id then c else x)
  { st with
    comments := comments
    notifications := create_comment_notification created c st.notifications }

/-- Deleting a comment: removes the row; no `post_save` fires, and no
receiver is registered for `post_delete`, so notifications are untouched. -/
def commentDelete (cid : Nat) (st : SMStore) : SMStore :=
  { st with comments := st.comments.filter (fun x => x.id ≠ cid) }

/-! ## Social media API: `LikeView.post` (posts/views.py lines 33–44) -/

/-- `LikeView.post`: look up the post by `pk` (404 if absent); `get_or_create`
the `(user, post)` Like — if it already exists (`created=False`, no save, so
no signal) answer 400 `"You have already liked this post."`; otherwise insert
the Like, which fires `post_save` with `created=True` and hence
`create_like_notification`, and answer `"Post liked."` (default status 200). -/
def likeViewPost (requestUser : Nat) (pk : Nat) (st : SMStore) :
    SMResponse × SMStore :=
  match st.posts.find? (fun p => p.id == pk) with
  | none => (⟨404, "Post not found."⟩, st)
  | some post =>
    if st.likes.any (fun l => l.user == requestUser && l.post.id == post.id) then
      (⟨400, "You have already liked this post."⟩, st)
    else
      let like : SMLike := ⟨requestUser, post⟩
      (⟨200, "Post liked."⟩,
       { st with
         likes := st.likes ++ [like]
         notifications := create_like_notification true like st.notifications })

/-! ## Social media API: follow / unfollow (accounts/views.py lines 41–65)

`request.user.following.add(other)` inserts a through-table row unless the
pair is already present (idempotent, no error).
`request.user.following.remove(other)` deletes the matching through-table
rows and is a silent no-op when no row matches: Django's
`RelatedManager.remove` raises `ValueError` only for unsaved instances, and
`user_to_unfollow` was just fetched with `.get(id=...)`, so the
`except ValueError` branch of `UnfollowView.post` is unreachable. -/

/-- The `following.add` semantics: insert the `(follower, followee)` edge
unless already present. -/
def followingAdd (fromUser toUser : Nat) (edges : List FollowEdge) :
    List FollowEdge :=
  if edges.any (fun e => e.fromUser == fromUser && e.toUser == toUser) then edges
  else edges ++ [⟨fromUser, toUser⟩]

/-- The `following.remove` semantics: delete all matching edges; a silent
no-op when none match (no exception for a saved instance). -/
def followingRemove (fromUser toUser : Nat) (edges : List FollowEdge) :
    List FollowEdge :=
  edges.filter (fun e => !(e.fromUser == fromUser && e.toUser == toUser))

/-- `FollowView.post`: 404 if the target user id does not exist; 400 if the
target is the caller; otherwise `following.add` and a success message. -/
def followViewPost (requestUser : Nat) (userId : Nat) (st : SMStore) :
    SMResponse × SMStore :=
  match st.users.find? (fun u => u.id == userId) with
  | none => (⟨404, "User not found."⟩, st)
  | some target =>
    if target.id == requestUser then
      (⟨400, "You cannot follow yourself."⟩, st)
    else
      (⟨200, "You are now following " ++ target.username ++ "."⟩,
       { st with followEdges := followingAdd requestUser userId st.followEdges })

/-- `UnfollowView.post`: 404 if the target user id does not exist; otherwise
`following.remove` and a success message.  The source's
`except ValueError` branch (400 `"You are not following ..."`) is dead code:
`remove` never raises for a saved instance, so this handler always answers
success once the user is found. -/
def unfollowViewPost (requestUser : Nat) (userId : Nat) (st : SMStore) :
    SMResponse × SMStore :=
  match st.users.find? (fun u => u.id == userId) with
  | none => (⟨404, "User not found."⟩, st)
  | some target =>
    (⟨200, "You have unfollowed " ++ target.username ++ "."⟩,
     { st with followEdges := followingRemove requestUser userId st.followEdges })

/-! ## Social media API: notification listing (notifications/views.py lines 7–12) -/

/-- Modelled from the spec: the `Notification` model
(`social_media_api/notifications/models.py`) is not under `src/`; per the
spec's data model a Notification has a `recipient`, and the reverse accessor
`user.notifications` used by `NotificationListView.get_queryset` yields
exactly the stored notifications whose recipient is that user. -/
def userNotifications (userId : Nat) (notifs : List SMNotification) :
    List SMNotification :=
  notifs.filter (fun n => n.recipient == userId)

/-- `NotificationListView.get_queryset`: `self.request.user.notifications.all()`
for the authenticated caller. -/
def notificationListGetQueryset (requestUser : Nat) (st : SMStore) :
    List SMNotification :=
  userNotifications requestUser st.notifications

/-! ## Blog: owner gating on post/comment update and delete (django_blog/blog/views.py)

`PostUpdateView`, `PostDeleteView`, `CommentUpdateView` and
`CommentDeleteView` all mix in `LoginRequiredMixin` and
`UserPassesTestMixin` with a `test_func` comparing `self.request.user` to
the object's `author`.  Framework semantics: `LoginRequiredMixin` redirects
an unauthenticated caller to the login page; `UserPassesTestMixin` calls
`handle_no_permission` when `test_func` is false, which for an
authenticated user raises `PermissionDenied`, rendered as HTTP 403; when
`test_func` is true the view's own handler runs (the update or delete is
carried out and a success response — per the spec's status contract 200 for
update, 204 for delete — is produced). -/

/-- The identity on a blog request: user id plus authentication flag. -/
structure BlogUser where
  id : Nat
  is_authenticated : Bool
  deriving DecidableEq, Repr

/-- A `blog.models.Post` row: primary key and author. -/
structure BlogPost where
  id : Nat
  author : Nat
  deriving DecidableEq, Repr

/-- A `blog.models.Comment` row: primary key, author, post. -/
structure BlogComment where
  id : Nat
  author : Nat
  post : Nat
  deriving DecidableEq, Repr

/-- `PostUpdateView.test_func` (blog/views.py lines 116–131):
`self.request.user == post.author`. -/
def postUpdateTestFunc (requestUser : Nat) (post : BlogPost) : Bool :=
  requestUser == post.author

/-- `PostDeleteView.test_func`: `self.request.user == post.author`. -/
def postDeleteTestFunc (requestUser : Nat) (post : BlogPost) : Bool :=
  requestUser == post.author

/-- `CommentUpdateView.test_func`: `self.request.user == comment.author`. -/
def commentUpdateTestFunc (requestUser : Nat) (c : BlogComment) : Bool :=
  requestUser == c.author

/-- `CommentDeleteView.test_func` (blog/views.py lines 189–200):
`self.request.user == comment.author`. -/
def commentDeleteTestFunc (requestUser : Nat) (c : BlogComment) : Bool :=
  requestUser == c.author

/-- Dispatch of a view guarded by `LoginRequiredMixin` and
`UserPassesTestMixin`: unauthenticated → 302 redirect to login; `test_func`
false for an authenticated user → `PermissionDenied` → 403; otherwise the
view handler runs and answers `successStatus`. -/
def guardedDispatch (u : BlogUser) (test : Bool) (successStatus : Nat) : Nat :=
  if !u.is_authenticated then 302
  else if test then successStatus
  else 403

/-- HTTP status of a `PostUpdateView` request by `u` on `post`. -/
def postUpdateDispatch (u : BlogUser) (post : BlogPost) : Nat :=
  guardedDispatch u (postUpdateTestFunc u.id post) 200

/-- HTTP status of a `PostDeleteView` request by `u` on `post`. -/
def postDeleteDispatch (u : BlogUser) (post : BlogPost) : Nat :=
  guardedDispatch u (postDeleteTestFunc u.id post) 204

/-- HTTP status of a `CommentUpdateView` request by `u` on `c`. -/
def commentUpdateDispatch (u : BlogUser) (c : BlogComment) : Nat :=
  guardedDispatch u (commentUpdateTestFunc u.id c) 200

/-- HTTP status of a `CommentDeleteView` request by `u` on `c`. -/
def commentDeleteDispatch (u : BlogUser) (c : BlogComment) : Nat :=
  guardedDispatch u (commentDeleteTestFunc u.id c) 204

/-! ## Group/permission bootstrap (relationship_app/management/commands/setup_groups.py)

`Command.handle` creates the four custom permissions for each of the two
`Book` models (`relationship_app.Book` and `bookshelf.Book`), then assigns:
Viewers ← the `can_view` permissions, Editors ← `can_view` + `can_create` +
`can_edit`, Admins ← all permissions. -/

/-- A permission codename of the library system. -/
inductive Codename where
  | can_view
  | can_create
  | can_edit
  | can_delete
  deriving DecidableEq, Repr

/-- The content type a permission is attached to: one of the two Book models. -/
inductive BookContentType where
  | relationshipBook
  | bookshelfBook
  deriving DecidableEq, Repr

/-- A `Permission` row: (codename, content type). -/
structure LibPermission where
  codename : Codename
  content_type : BookContentType
  deriving DecidableEq, Repr

/-- The `relationship_permissions` list built by `Command.handle`. -/
def relationship_permissions : List LibPermission :=
  [⟨.can_view, .relationshipBook⟩, ⟨.can_create, .relationshipBook⟩,
   ⟨.can_edit, .relationshipBook⟩, ⟨.can_delete, .relationshipBook⟩]

/-- The `bookshelf_permissions` list built by `Command.handle`. -/
def bookshelf_permissions : List LibPermission :=
  [⟨.can_view, .bookshelfBook⟩, ⟨.can_create, .bookshelfBook⟩,
   ⟨.can_edit, .bookshelfBook⟩, ⟨.can_delete, .bookshelfBook⟩]

/-- `all_permissions = relationship_permissions + bookshelf_permissions`. -/
def all_permissions : List LibPermission :=
  relationship_permissions ++ bookshelf_permissions

/-- `view_permissions = [p for p in all_permissions if p.codename == 'can_view']`. -/
def view_permissions : List LibPermission :=
  all_permissions.filter (fun p => p.codename == .can_view)

/-- `create_permissions`, filtered on `can_create`. -/
def create_permissions : List LibPermission :=
  all_permissions.filter (fun p => p.codename == .can_create)

/-- `edit_permissions`, filtered on `can_edit`. -/
def edit_permissions : List LibPermission :=
  all_permissions.filter (fun p => p.codename == .can_edit)

/-- `delete_permissions`, filtered on `can_delete`. -/
def delete_permissions : List LibPermission :=
  all_permissions.filter (fun p => p.codename == .can_delete)

/-- `viewers_group.permissions.set(view_permissions)`. -/
def viewersPerms : List LibPermission := view_permissions

/-- `editors_group.permissions.set(view_permissions + create_permissions + edit_permissions)`. -/
def editorsPerms : List LibPermission :=
  view_permissions ++ create_permissions ++ edit_permissions

/-- `admins_group.permissions.set(all_permissions)`. -/
def adminsPerms : List LibPermission := all_permissions

/-! ## Book serializer validation (advanced-api-project/api/serializers.py)

`BookSerializer.validate_publication_year` compares the submitted value to
`datetime.now().year`; the current year is a parameter of the embedding. -/

/-- `BookSerializer.validate_publication_year` (serializers.py lines 20–41):
raise `ValidationError` when `value > current_year`, otherwise return the
value unchanged.  Runs on every Book write (create and update) that
deserializes the `publication_year` field. -/
def validate_publication_year (current_year : Int) (value : Int) :
    Except String Int :=
  if value > current_year then
    .error ("Publication year cannot be in the future. Current year is "
            ++ toString current_year ++ ".")
  else
    .ok value

/-! ## String utilities

Kernel-computable models of the Python/framework string operations the
embedded code uses (`str.strip`, `str.split(',')`, `str.lower`, leading-sign
tests), working on the string's character list. -/

/-- Python `str.strip()` with no argument: remove leading and trailing
whitespace. -/
def pyStrip (s : String) : String :=
  ⟨((s.data.dropWhile Char.isWhitespace).reverse.dropWhile Char.isWhitespace).reverse⟩

/-- Python `str.lower()` (ASCII case folding, as in the embedded patterns). -/
def pyLower (s : String) : String :=
  ⟨s.data.map Char.toLower⟩

/-- Split a character list on a separator; the empty list yields one empty
group, matching Python `"".split(',') == ['']`. -/
def splitCharsOn (sep : Char) : List Char → List (List Char)
  | [] => [[]]
  | c :: rest =>
    if c == sep then [] :: splitCharsOn sep rest
    else
      match splitCharsOn sep rest with
      | [] => [[c]]
      | g :: gs => (c :: g) :: gs

/-- Python `s.split(',')`. -/
def pySplitComma (s : String) : List String :=
  (splitCharsOn (Char.ofNat 44) s.data).map (fun g => ⟨g⟩)

/-- Whether the string starts with `-`. -/
def hasDashSign (t : String) : Bool :=
  match t.data with
  | c :: _ => c == Char.ofNat 45
  | [] => false

/-- Drop the first character of a string. -/
def dropFirstChar (t : String) : String :=
  ⟨t.data.drop 1⟩

/-! ## Book list ordering (advanced-api-project/api/views.py, `BookListView`)

`BookListView` declares `filter_backends = [DjangoFilterBackend,
SearchFilter, OrderingFilter]`, `ordering_fields = ['title',
'publication_year', 'author__name']` and default `ordering = ['title']`.
With no filter/search parameters the first two backends pass the queryset
through; the embedding models a request that only carries the `ordering`
query parameter.  `rest_framework.filters.OrderingFilter` semantics:
`get_ordering` splits the parameter on commas, strips each term, drops
every term whose name (after removing one leading `-`) is not in
`ordering_fields` (`remove_invalid_fields`), and falls back to the view's
default ordering when the parameter is absent, empty, or left with no valid
term; the queryset is then sorted by the surviving terms.  No branch
produces an error response. -/

/-- A joined `api.models.Book` row with its author's name (the `Book.author`
foreign key dereferenced), carrying the fields the declared ordering set can
sort by. -/
structure ApiBook where
  id : Nat
  title : String
  publication_year : Int
  author_name : String
  deriving DecidableEq, Repr

/-- `ordering_fields` of `BookListView`. -/
def ordering_fields : List String := ["title", "publication_year", "author__name"]

/-- Default `ordering` of `BookListView`. -/
def default_ordering : List String := ["title"]

/-- `OrderingFilter.remove_invalid_fields`'s `term_valid`: the term, with one
leading `-` removed, must be a declared ordering field. -/
def term_valid (term : String) : Bool :=
  let t := if hasDashSign term then dropFirstChar term else term
  ordering_fields.contains t

/-- `OrderingFilter.remove_invalid_fields`: keep only the valid terms. -/
def remove_invalid_fields (fields : List String) : List String :=
  fields.filter term_valid

/-- `OrderingFilter.get_ordering`: comma-split and strip the parameter, drop
invalid terms, fall back to the default ordering when the parameter is
absent/empty or nothing valid remains. -/
def get_ordering (param : Option String) : List String :=
  match param with
  | none => default_ordering
  | some s =>
    if s == "" then default_ordering
    else
      let fields := (pySplitComma s).map pyStrip
      let ordering := remove_invalid_fields fields
      if ordering.isEmpty then default_ordering else ordering

/-- Comparison of two books on one ordering field name. -/
def cmpField (f : String) (a b : ApiBook) : Ordering :=
  if f == "title" then compare a.title b.title
  else if f == "publication_year" then compare a.publication_year b.publication_year
  else if f == "author__name" then compare a.author_name b.author_name
  else Ordering.eq

/-- Comparison on one ordering term: a leading `-` reverses the order. -/
def cmpTerm (t : String) (a b : ApiBook) : Ordering :=
  if hasDashSign t then cmpField (dropFirstChar t) b a else cmpField t a b

/-- Lexicographic comparison on a list of ordering terms. -/
def cmpTerms (ts : List String) (a b : ApiBook) : Ordering :=
  match ts with
  | [] => Ordering.eq
  | t :: rest =>
    match cmpTerm t a b with
    | Ordering.eq => cmpTerms rest a b
    | o => o

/-- Stable insertion into a list sorted by `le`. -/
def orderedInsertBook (le : ApiBook → ApiBook → Bool) (x : ApiBook) :
    List ApiBook → List ApiBook
  | [] => [x]
  | y :: ys => if le x y then x :: y :: ys else y :: orderedInsertBook le x ys

/-- Stable insertion sort by `le`. -/
def sortBooks (le : ApiBook → ApiBook → Bool) : List ApiBook → List ApiBook
  | [] => []
  | x :: xs => orderedInsertBook le x (sortBooks le xs)

/-- `queryset.order_by(*terms)`: stable sort of the book rows by the ordering
terms. -/
def order_by (terms : List String) (books : List ApiBook) : List ApiBook :=
  sortBooks (fun a b => cmpTerms terms a b ≠ Ordering.gt) books

/-- `BookListView` handling a GET whose only query parameter is the optional
`ordering`: always answers 200 with the rows sorted per
`OrderingFilter.get_ordering` — there is no rejection branch. -/
def bookListView (param : Option String) (books : List ApiBook) :
    Nat × List ApiBook :=
  (200, order_by (get_ordering param) books)

/-! ## Free-text sanitization (bookshelf/forms.py, `ExampleForm.clean_message`)

`clean_message` strips the message, HTML-escapes it
(`django.utils.html.escape`, a simultaneous character translation), lowers
it, and rejects it when any pattern from the two hard-coded lists occurs as
a substring of the result; Django attributes the `ValidationError` raised
by a `clean_<field>` method to that field. -/

/-- `django.utils.html.escape` on one character: `&` → `&amp;`, `<` → `&lt;`,
`>` → `&gt;`, `"` → `&quot;`, `'` → `&#x27;`; all other characters pass
through.  The translation is simultaneous (`str.translate`), so produced
entities are not re-escaped. -/
def escapeChar (c : Char) : String :=
  if c == '&' then "&amp;"
  else if c == '<' then "&lt;"
  else if c == '>' then "&gt;"
  else if c == '"' then "&quot;"
  else if c == Char.ofNat 39 then "&#x27;"
  else String.singleton c

/-- `django.utils.html.escape` on a string. -/
def escape (s : String) : String :=
  String.join (s.toList.map escapeChar)

/-- Whether `pat` occurs at the start of `text` (character lists). -/
def startsWithChars : List Char → List Char → Bool
  | [], _ => true
  | _ :: _, [] => false
  | p :: ps, t :: ts => p == t && startsWithChars ps ts

/-- Whether `pat` occurs as a contiguous substring of the character list. -/
def containsChars (pat : List Char) : List Char → Bool
  | [] => pat.isEmpty
  | t :: ts => startsWithChars pat (t :: ts) || containsChars pat ts

/-- Python's `pat in text` on strings. -/
def strContainsSub (text pat : String) : Bool :=
  containsChars pat.toList text.toList

/-- The `dangerous_patterns` list of `clean_message`. -/
def dangerous_patterns : List String :=
  ["<script", "</script>", "javascript:", "onload=", "onerror=",
   "onclick=", "onmouseover=", "<iframe", "<object", "<embed"]

/-- The `sql_patterns` list of `clean_message`. -/
def sql_patterns : List String :=
  ["union select", "drop table", "delete from", "insert into",
   "update set", "--", ";--", "/*", "*/"]

/-- `ExampleForm.clean_message` (bookshelf/forms.py lines 81–113): skip the
checks for an empty (falsy) message; otherwise escape the stripped message,
and raise `ValidationError` when the lowered result contains any dangerous
pattern (`"Message contains potentially dangerous content."`) or, failing
that, any SQL pattern (`"Message contains invalid content."`); else return
the escaped message. -/
def clean_message (message : String) : Except String String :=
  if message == "" then .ok message
  else
    let m := escape (pyStrip message)
    let lower := pyLower m
    if dangerous_patterns.any (fun p => strContainsSub lower p) then
      .error "Message contains potentially dangerous content."
    else if sql_patterns.any (fun p => strContainsSub lower p) then
      .error "Message contains invalid content."
    else .ok m

/-- The containment test of the claim: some listed pattern occurs in the
trimmed, HTML-escaped, lowered message. -/
def containsListedPattern (message : String) : Bool :=
  (dangerous_patterns ++ sql_patterns).any
    (fun p => strContainsSub (pyLower (escape (pyStrip message))) p)

/-! ## Role predicates (relationship_app/views.py lines 76–83)

`is_admin` / `is_librarian` / `is_member` check `user.is_authenticated`,
then `hasattr(user, 'userprofile')` (the one-to-one reverse accessor exists
iff a profile row exists — embedded as an `Option`), then compare the
profile's `role` string. -/

/-- A `UserProfile` row: its `role` CharField. -/
structure RAUserProfile where
  role : String
  deriving DecidableEq, Repr

/-- A user as seen by the role predicates: `is_authenticated`, and the
optional related `userprofile`. -/
structure RAUser where
  is_authenticated : Bool
  userprofile : Option RAUserProfile
  deriving DecidableEq, Repr

/-- `is_admin` (relationship_app/views.py): authenticated, has a profile,
and the profile's role is `'Admin'`. -/
def is_admin (u : RAUser) : Bool :=
  u.is_authenticated &&
    (match u.userprofile with
     | some p => p.role == "Admin"
     | none => false)

/-- `is_librarian`: authenticated, has a profile, role `'Librarian'`. -/
def is_librarian (u : RAUser) : Bool :=
  u.is_authenticated &&
    (match u.userprofile with
     | some p => p.role == "Librarian"
     | none => false)

/-- `is_member`: authenticated, has a profile, role `'Member'`. -/
def is_member (u : RAUser) : Bool :=
  u.is_authenticated &&
    (match u.userprofile with
     | some p => p.role == "Member"
     | none => false)

/-! ## Helper definitions used by the theorem statements -/

/-- Number of stored Like rows by user `u` on post `pk`. -/
def likeCount (u pk : Nat) (st : SMStore) : Nat :=
  (st.likes.filter (fun l => l.user == u && l.post.id == pk)).length

/-- Whether a field-clean result is a raised `ValidationError`. -/
def isValidationError (r : Except String String) : Bool :=
  match r with
  | .error _ => true
  | .ok _ => false

/-- A concrete book table for witnesses: the publication years of the spec's
filtering example. -/
def sampleBooks : List ApiBook :=
  [⟨1, "Nineteen Eighty-Four", 1949, "George Orwell"⟩,
   ⟨2, "Animal Farm", 1945, "George Orwell"⟩,
   ⟨3, "Pride and Prejudice", 1813, "Jane Austen"⟩]

/-! ## Theorems -/

/-- C1: creating a Comment emits exactly one Notification, whose recipient is
the comment's post's author and whose verb is `"commented on your post"`;
saving an existing Comment again (update) or deleting it leaves the
notification store unchanged. -/
theorem comment_create_emits_single_notification (c : SMComment) (st : SMStore) :
    (st.comments.any (fun x => x.id == c.id) = false →
      (commentSave c st).notifications =
        st.notifications ++ [⟨c.post.author, c.author, "commented on your post", c.post.id⟩]) ∧
    (st.comments.any (fun x => x.id == c.id) = true →
      (commentSave c st).notifications = st.notifications) ∧
    (∀ cid : Nat, (commentDelete cid st).notifications = st.notifications) := by
  refine ⟨fun h => ?_, fun h => ?_, fun cid => rfl⟩ <;>
    simp [commentSave, create_comment_notification, h]

/-- Witness for C1: a fresh comment on post 5 (owned by user 2) by user 1
adds exactly the expected notification; re-saving it adds nothing. -/
theorem comment_create_emits_single_notification_witness :
    (commentSave ⟨7, 1, ⟨5, 2⟩⟩ ⟨[], [⟨5, 2⟩], [], [], [], []⟩).notifications =
      [] ++ [⟨2, 1, "commented on your post", 5⟩] ∧
    (commentSave ⟨7, 1, ⟨5, 2⟩⟩
        (commentSave ⟨7, 1, ⟨5, 2⟩⟩ ⟨[], [⟨5, 2⟩], [], [], [], []⟩)).notifications =
      (commentSave ⟨7, 1, ⟨5, 2⟩⟩ ⟨[], [⟨5, 2⟩], [], [], [], []⟩).notifications :=
  ⟨(comment_create_emits_single_notification ⟨7, 1, ⟨5, 2⟩⟩ _).1 (by decide),
   (comment_create_emits_single_notification ⟨7, 1, ⟨5, 2⟩⟩ _).2.1 (by decide)⟩

/-- Reduction of `likeViewPost` when the post exists and the caller has not
liked it yet: the Like row is inserted and the `post_save` signal appends the
notification. -/
theorem like_step (u pk : Nat) (p : SMPost) (st : SMStore)
    (hpost : st.posts.find? (fun q => q.id == pk) = some p)
    (hnolike : st.likes.any (fun l => l.user == u && l.post.id == p.id) = false) :
    likeViewPost u pk st =
      (⟨200, "Post liked."⟩,
       { st with likes := st.likes ++ [⟨u, p⟩],
                 notifications := st.notifications ++ [⟨p.author, u, "liked your post", p.id⟩] }) := by
  unfold likeViewPost
  rw [hpost]
  dsimp only
  rw [hnolike]
  simp [create_like_notification]

/-- Reduction of `likeViewPost` when the post exists and the caller already
has a Like on it: `created=False`, a 400 answer, and no state change. -/
theorem like_conflict_step (u pk : Nat) (p : SMPost) (st : SMStore)
    (hpost : st.posts.find? (fun q => q.id == pk) = some p)
    (hlike : st.likes.any (fun l => l.user == u && l.post.id == p.id) = true) :
    likeViewPost u pk st = (⟨400, "You have already liked this post."⟩, st) := by
  unfold likeViewPost
  rw [hpost]
  dsimp only
  rw [hlike]
  simp

/-- C2: with the post present and no prior Like by `u` on it, the first like
request answers 200 `"Post liked."`, leaves exactly one Like by `u` on the
post and appends exactly one Notification (recipient the post's author, verb
`"liked your post"`); the immediate second like request by the same user
answers 400 `"You have already liked this post."` and changes nothing. -/
theorem like_first_succeeds_second_conflicts (u pk : Nat) (p : SMPost) (st : SMStore)
    (hpost : st.posts.find? (fun q => q.id == pk) = some p)
    (hnolike : st.likes.any (fun l => l.user == u && l.post.id == pk) = false) :
    (likeViewPost u pk st).1 = ⟨200, "Post liked."⟩ ∧
    likeCount u pk (likeViewPost u pk st).2 = 1 ∧
    (likeViewPost u pk st).2.notifications =
      st.notifications ++ [⟨p.author, u, "liked your post", p.id⟩] ∧
    (likeViewPost u pk (likeViewPost u pk st).2).1 =
      ⟨400, "You have already liked this post."⟩ ∧
    (likeViewPost u pk (likeViewPost u pk st).2).2 = (likeViewPost u pk st).2 := by
  have hid : p.id = pk := by
    have h := List.find?_some hpost
    simpa using h
  have hnolike' : st.likes.any (fun l => l.user == u && l.post.id == p.id) = false := by
    rw [hid]; exact hnolike
  have hfil : st.likes.filter (fun l => l.user == u && l.post.id == pk) = [] := by
    rw [List.filter_eq_nil_iff]
    intro a ha hfa
    have h1 : st.likes.any (fun l => l.user == u && l.post.id == pk) = true :=
      List.any_eq_true.mpr ⟨a, ha, hfa⟩
    rw [h1] at hnolike
    exact Bool.true_eq_false.mp hnolike
  have hstep := like_step u pk p st hpost hnolike'
  set st2 : SMStore :=
    { st with likes := st.likes ++ [SMLike.mk u p],
              notifications := st.notifications ++ [SMNotification.mk p.author u "liked your post" p.id] } with hst2
  have hpost2 : st2.posts.find? (fun q => q.id == pk) = some p := hpost
  have hlike2 : st2.likes.any (fun l => l.user == u && l.post.id == p.id) = true := by
    show (st.likes ++ [SMLike.mk u p]).any (fun l => l.user == u && l.post.id == p.id) = true
    rw [List.any_append, hnolike']
    simp
  have hstep2 := like_conflict_step u pk p st2 hpost2 hlike2
  rw [hstep]
  refine ⟨rfl, ?_, rfl, ?_, ?_⟩
  · show likeCount u pk st2 = 1
    unfold likeCount
    show (List.filter (fun l => l.user == u && l.post.id == pk) (st.likes ++ [SMLike.mk u p])).length = 1
    rw [List.filter_append, hfil]
    simp [hid]
  · rw [hstep2]
  · rw [hstep2]

/-- Witness for C2: user 1 likes post 5 (owned by user 2) in a store with no
likes; the first call succeeds and leaves one Like, the second conflicts. -/
theorem like_first_succeeds_second_conflicts_witness :
    (likeViewPost 1 5 ⟨[], [⟨5, 2⟩], [], [], [], []⟩).1 = ⟨200, "Post liked."⟩ ∧
    likeCount 1 5 (likeViewPost 1 5 ⟨[], [⟨5, 2⟩], [], [], [], []⟩).2 = 1 ∧
    (likeViewPost 1 5 (likeViewPost 1 5 ⟨[], [⟨5, 2⟩], [], [], [], []⟩).2).1 =
      ⟨400, "You have already liked this post."⟩ := by
  have h := like_first_succeeds_second_conflicts 1 5 ⟨5, 2⟩
    ⟨[], [⟨5, 2⟩], [], [], [], []⟩ (by decide) (by decide)
  exact ⟨h.1, h.2.1, h.2.2.2.1⟩

/-- C3: for an authenticated identity attempting update or delete on a Post
or a Comment, a non-owner is denied with 403 and the owner's request
succeeds (200 for update, 204 for delete), across all four owner-gated
views. -/
theorem owner_scoped_update_delete_gating (u : BlogUser) (post : BlogPost)
    (c : BlogComment) (hauth : u.is_authenticated = true) :
    (u.id ≠ post.author → postUpdateDispatch u post = 403) ∧
    (u.id = post.author → postUpdateDispatch u post = 200) ∧
    (u.id ≠ post.author → postDeleteDispatch u post = 403) ∧
    (u.id = post.author → postDeleteDispatch u post = 204) ∧
    (u.id ≠ c.author → commentUpdateDispatch u c = 403) ∧
    (u.id = c.author → commentUpdateDispatch u c = 200) ∧
    (u.id ≠ c.author → commentDeleteDispatch u c = 403) ∧
    (u.id = c.author → commentDeleteDispatch u c = 204) := by
  refine ⟨fun h => ?_, fun h => ?_, fun h => ?_, fun h => ?_,
          fun h => ?_, fun h => ?_, fun h => ?_, fun h => ?_⟩ <;>
    simp [postUpdateDispatch, postDeleteDispatch, commentUpdateDispatch,
          commentDeleteDispatch, guardedDispatch, postUpdateTestFunc,
          postDeleteTestFunc, commentUpdateTestFunc, commentDeleteTestFunc,
          hauth, h]

/-- Witness for C3: authenticated user 1 is denied on user 2's post and
succeeds deleting their own comment. -/
theorem owner_scoped_update_delete_gating_witness :
    postUpdateDispatch ⟨1, true⟩ ⟨10, 2⟩ = 403 ∧
    commentDeleteDispatch ⟨1, true⟩ ⟨20, 1, 10⟩ = 204 :=
  ⟨(owner_scoped_update_delete_gating ⟨1, true⟩ ⟨10, 2⟩ ⟨20, 1, 10⟩ rfl).1 (by decide),
   (owner_scoped_update_delete_gating ⟨1, true⟩ ⟨10, 2⟩ ⟨20, 1, 10⟩ rfl).2.2.2.2.2.2.2 rfl⟩

/-- C4: the bootstrap assigns Viewers exactly the codename set `{can_view}`,
Editors exactly `{can_view, can_create, can_edit}`, and Admins a superset of
Editors' permissions together with every `can_delete` permission; the
permission sets are linearly ordered by inclusion
Viewers ⊆ Editors ⊆ Admins. -/
theorem group_permission_hierarchy :
    (viewersPerms.map LibPermission.codename).toFinset = {Codename.can_view} ∧
    (editorsPerms.map LibPermission.codename).toFinset =
      {Codename.can_view, Codename.can_create, Codename.can_edit} ∧
    (∀ p ∈ editorsPerms, p ∈ adminsPerms) ∧
    (∀ p ∈ delete_permissions, p ∈ adminsPerms) ∧
    (∀ p ∈ viewersPerms, p ∈ editorsPerms) := by
  decide

/-- C5: `validate_publication_year` rejects a year strictly greater than the
current year with the `ValidationError` message, and returns any year less
than or equal to the current year unchanged (the value passes validation). -/
theorem book_publication_year_validation (current_year value : Int) :
    (value > current_year →
      validate_publication_year current_year value =
        .error ("Publication year cannot be in the future. Current year is "
                ++ toString current_year ++ ".")) ∧
    (value ≤ current_year →
      validate_publication_year current_year value = .ok value) := by
  constructor
  · intro h
    unfold validate_publication_year
    rw [if_pos h]
  · intro h
    unfold validate_publication_year
    rw [if_neg (not_lt.mpr h)]

/-- Witness for C5: with current year 2025, year 2026 is rejected and year
1949 is accepted. -/
theorem book_publication_year_validation_witness :
    validate_publication_year 2025 2026 =
      .error ("Publication year cannot be in the future. Current year is "
              ++ toString (2025 : Int) ++ ".") ∧
    validate_publication_year 2025 1949 = .ok 1949 :=
  ⟨(book_publication_year_validation 2025 2026).1 (by norm_num),
   (book_publication_year_validation 2025 1949).2 (by norm_num)⟩

/-- C6: follow/unfollow edge counts are as claimed (one edge after the
follow, zero after the unfollow), but an unfollow request for a user the
caller does not follow answers 200
`"You have unfollowed bob."` — `following.remove` is a silent no-op and the
handler's `except ValueError` conflict branch is unreachable, so no
"not following" conflict error is ever produced, contrary to the claim and
to the handler's own dead error branch. -/
theorem second_unfollow_reports_success :
    ((followViewPost 1 2 ⟨[⟨1, "alice"⟩, ⟨2, "bob"⟩], [], [], [], [], []⟩).2.followEdges
       = [⟨1, 2⟩]) ∧
    ((unfollowViewPost 1 2
        (followViewPost 1 2 ⟨[⟨1, "alice"⟩, ⟨2, "bob"⟩], [], [], [], [], []⟩).2).2.followEdges
       = []) ∧
    (unfollowViewPost 1 2
        (unfollowViewPost 1 2
          (followViewPost 1 2 ⟨[⟨1, "alice"⟩, ⟨2, "bob"⟩], [], [], [], [], []⟩).2).2).1
       = ⟨200, "You have unfollowed bob."⟩ := by
  decide

/-- Counterexample for C7: the ordering parameter `isbn` names a field
outside `ordering_fields`, yet the request is answered 200 with exactly the
same body as a request with no ordering parameter (default ordering by
title) — it is not rejected with an error. -/
theorem invalid_ordering_answered_as_default :
    bookListView (some "isbn") sampleBooks = bookListView none sampleBooks ∧
    (bookListView (some "isbn") sampleBooks).1 = 200 := by
  decide

/-- C7 (amended): a book-list query whose ordering parameter yields no
declared field after comma-splitting, stripping and sign removal is answered
200 exactly as if the ordering parameter were absent: the invalid terms are
silently dropped and the default ordering (`title`) applies. -/
theorem invalid_ordering_silently_dropped (books : List ApiBook) (s : String)
    (h : remove_invalid_fields ((pySplitComma s).map pyStrip) = []) :
    bookListView (some s) books = bookListView none books ∧
    (bookListView (some s) books).1 = 200 := by
  constructor
  · by_cases hs : s = ""
    · subst hs; rfl
    · have hbeq : (s == "") = false := by simp [hs]
      simp [bookListView, get_ordering, hbeq, h]
  · rfl

/-- Witness for C7 (amended): the `isbn` ordering parameter on the sample
books is answered as the default-ordered list. -/
theorem invalid_ordering_silently_dropped_witness :
    bookListView (some "isbn") sampleBooks = bookListView none sampleBooks :=
  (invalid_ordering_silently_dropped sampleBooks "isbn" (by decide)).1

/-- C8: the notification list endpoint returns a notification iff it is
stored and its recipient is the authenticated caller — every returned
notification belongs to the caller, and no other recipient's notification is
included, whatever else the store holds. -/
theorem notification_list_exactly_own (requestUser : Nat) (st : SMStore)
    (n : SMNotification) :
    n ∈ notificationListGetQueryset requestUser st ↔
      n ∈ st.notifications ∧ n.recipient = requestUser := by
  simp [notificationListGetQueryset, userNotifications, List.mem_filter]

/-- C9: `clean_message` raises a `ValidationError` (attributed by the form
framework to the `message` field) exactly when the trimmed, HTML-escaped,
lowered message contains one of the listed dangerous or SQL patterns as a
substring; a message containing none of them passes the check. -/
theorem clean_message_rejects_iff_listed_pattern (message : String) :
    isValidationError (clean_message message) = containsListedPattern message := by
  by_cases hm : message = ""
  · subst hm; decide
  · have hbeq : (message == "") = false := by simp [hm]
    simp only [clean_message, containsListedPattern, hbeq, Bool.false_eq_true,
               if_false, List.any_append]
    cases hd : dangerous_patterns.any
        (fun p => strContainsSub (pyLower (escape (pyStrip message))) p) <;>
      cases hs : sql_patterns.any
          (fun p => strContainsSub (pyLower (escape (pyStrip message))) p) <;>
        simp [isValidationError, hd, hs]

/-- Two different role strings cannot both equal the same stored role. -/
theorem beq_two_distinct {r a b : String} (hab : a ≠ b) :
    (r == a && r == b) = false := by
  by_cases h : r = a
  · subst h
    simp [beq_eq_false_iff_ne.mpr hab]
  · simp [beq_eq_false_iff_ne.mpr h]

/-- An authentication-and-role conjunction is false whenever the two role
strings differ, whatever the profile. -/
theorem auth_role_pair_false (auth : Bool) (pr : Option RAUserProfile)
    (a b : String) (hab : a ≠ b) :
    ((auth && match pr with | some q => q.role == a | none => false) &&
     (auth && match pr with | some q => q.role == b | none => false)) = false := by
  cases pr
  · simp
  · cases auth
    · simp
    · simpa using beq_two_distinct hab

/-- C10: the three role predicates are pairwise mutually exclusive, and all
three are false for an unauthenticated user and for a user with no
`userprofile`. -/
theorem role_predicates_exclusive_and_guarded (u : RAUser)
    (p : Option RAUserProfile) (b : Bool) :
    (is_admin u && is_librarian u) = false ∧
    (is_admin u && is_member u) = false ∧
    (is_librarian u && is_member u) = false ∧
    is_admin ⟨false, p⟩ = false ∧
    is_librarian ⟨false, p⟩ = false ∧
    is_member ⟨false, p⟩ = false ∧
    is_admin ⟨b, none⟩ = false ∧
    is_librarian ⟨b, none⟩ = false ∧
    is_member ⟨b, none⟩ = false := by
  refine ⟨?_, ?_, ?_, by simp [is_admin], by simp [is_librarian], by simp [is_member],
          by simp [is_admin], by simp [is_librarian], by simp [is_member]⟩
  · exact auth_role_pair_false u.is_authenticated u.userprofile "Admin" "Librarian" (by decide)
  · exact auth_role_pair_false u.is_authenticated u.userprofile "Admin" "Member" (by decide)
  · exact auth_role_pair_false u.is_authenticated u.userprofile "Librarian" "Member" (by decide)
